import Mathlib

/-!
Verification development for the notebook tansmon+LC+transmon.ipynb.

The notebook is glue code over the scqubits library: it builds two
Transmon objects and one Oscillator, assembles a HilbertSpace from them,
registers two interaction terms, runs a ParameterSweep with a
notebook-defined update callback, and launches an Explorer widget.

Two models are developed below.

First, a syntactic model: a small Python abstract syntax tree, into which
every statement of the notebook is transcribed verbatim.  Claims about
call order, call counts, absence of control flow, absence of error
handling, imports and input/output are stated and decided on this
transcription.

Second, a semantic model: the notebook-defined function
update_hilbertspace is translated into a Lean function on a record of the
three subsystems, with real-valued fields and Real.cos for np.cos.
Claims about the values it assigns (frame conditions, bounds, symmetry)
are proved about this function.
-/

/-- Python expressions, as far as the notebook needs them.  Numeric
literals are carried exactly as rationals. -/
inductive PyExpr where
  | numLit (q : ℚ)
  | strLit (s : String)
  | boolLit (b : Bool)
  | name (s : String)
  | attr (e : PyExpr) (field : String)
  | call (f : PyExpr) (args : List PyExpr) (kwargs : List (String × PyExpr))
  | binop (op : String) (l r : PyExpr)
  | tuple (es : List PyExpr)
  | listLit (es : List PyExpr)
  | dictLit (entries : List (PyExpr × PyExpr))

/-- Innermost straight-line statements (bodies of blocks nested two deep).
The notebook never nests this far. -/
inductive Stmt0 where
  | assign (target value : PyExpr)
  | exprStmt (e : PyExpr)

/-- Statements that may appear inside a function body or other block:
straight-line statements plus one level of control flow, error handling
and returns. -/
inductive Stmt1 where
  | assign (target value : PyExpr)
  | exprStmt (e : PyExpr)
  | ifStmt (cond : PyExpr) (thn els : List Stmt0)
  | forStmt (target : String) (iter : PyExpr) (body : List Stmt0)
  | whileStmt (cond : PyExpr) (body : List Stmt0)
  | tryStmt (body handlers : List Stmt0)
  | raiseStmt (e : Option PyExpr)
  | assertStmt (e : PyExpr)
  | returnStmt (e : Option PyExpr)
  | withStmt (ctx : PyExpr) (body : List Stmt0)

/-- Top-level statements of a notebook cell. -/
inductive Stmt where
  | importStmt (module : String) (asName : String)
  | assign (target value : PyExpr)
  | exprStmt (e : PyExpr)
  | funcDef (fname : String) (params : List String) (body : List Stmt1)
  | ifStmt (cond : PyExpr) (thn els : List Stmt1)
  | forStmt (target : String) (iter : PyExpr) (body : List Stmt1)
  | whileStmt (cond : PyExpr) (body : List Stmt1)
  | tryStmt (body handlers : List Stmt1)
  | raiseStmt (e : Option PyExpr)
  | assertStmt (e : PyExpr)
  | withStmt (ctx : PyExpr) (body : List Stmt1)

/-! ## Transcription of the notebook, cell by cell -/

/-- Cell 1: the two import statements. -/
def cell1 : List Stmt :=
  [Stmt.importStmt "numpy" "np",
   Stmt.importStmt "scqubits" "scq"]

/-- Keyword arguments of the first Transmon constructor call. -/
def tmon1Kwargs : List (String × PyExpr) :=
  [("EJ", PyExpr.numLit 40), ("EC", PyExpr.numLit 0.2), ("ng", PyExpr.numLit 0.3),
   ("ncut", PyExpr.numLit 40), ("truncated_dim", PyExpr.numLit 4)]

/-- The call scq.Transmon(EJ=40.0, EC=0.2, ng=0.3, ncut=40, truncated_dim=4). -/
def tmon1CtorExpr : PyExpr :=
  PyExpr.call (PyExpr.attr (PyExpr.name "scq") "Transmon") [] tmon1Kwargs

/-- Keyword arguments of the second Transmon constructor call. -/
def tmon2Kwargs : List (String × PyExpr) :=
  [("EJ", PyExpr.numLit 15), ("EC", PyExpr.numLit 0.15), ("ng", PyExpr.numLit 0),
   ("ncut", PyExpr.numLit 30), ("truncated_dim", PyExpr.numLit 4)]

/-- The call scq.Transmon(EJ=15.0, EC=0.15, ng=0.0, ncut=30, truncated_dim=4). -/
def tmon2CtorExpr : PyExpr :=
  PyExpr.call (PyExpr.attr (PyExpr.name "scq") "Transmon") [] tmon2Kwargs

/-- Keyword arguments of the Oscillator constructor call. -/
def resonatorKwargs : List (String × PyExpr) :=
  [("E_osc", PyExpr.numLit 4.5), ("truncated_dim", PyExpr.numLit 4)]

/-- The call scq.Oscillator(E_osc=4.5, truncated_dim=4). -/
def resonatorCtorExpr : PyExpr :=
  PyExpr.call (PyExpr.attr (PyExpr.name "scq") "Oscillator") [] resonatorKwargs

/-- Cell 2: construction of tmon1, tmon2 and resonator. -/
def cell2 : List Stmt :=
  [Stmt.assign (PyExpr.name "tmon1") tmon1CtorExpr,
   Stmt.assign (PyExpr.name "tmon2") tmon2CtorExpr,
   Stmt.assign (PyExpr.name "resonator") resonatorCtorExpr]

/-- Cell 3: g = 0.1 and the GUI-based hilbertspace = scq.HilbertSpace.create(). -/
def cell3 : List Stmt :=
  [Stmt.assign (PyExpr.name "g") (PyExpr.numLit 0.1),
   Stmt.assign (PyExpr.name "hilbertspace")
     (PyExpr.call (PyExpr.attr (PyExpr.attr (PyExpr.name "scq") "HilbertSpace") "create") [] [])]

/-- The call scq.HilbertSpace([tmon1, tmon2, resonator]). -/
def hilbertSpaceCtorExpr : PyExpr :=
  PyExpr.call (PyExpr.attr (PyExpr.name "scq") "HilbertSpace")
    [PyExpr.listLit [PyExpr.name "tmon1", PyExpr.name "tmon2", PyExpr.name "resonator"]] []

/-- Cell 4: programmatic HilbertSpace assembly, then print(hilbertspace). -/
def cell4 : List Stmt :=
  [Stmt.assign (PyExpr.name "hilbertspace") hilbertSpaceCtorExpr,
   Stmt.exprStmt (PyExpr.call (PyExpr.name "print") [PyExpr.name "hilbertspace"] [])]

/-- Keyword arguments of the first add_interaction call. -/
def interaction1Kwargs : List (String × PyExpr) :=
  [("g", PyExpr.name "g1"),
   ("op1", PyExpr.tuple [PyExpr.name "operator1", PyExpr.name "tmon1"]),
   ("op2", PyExpr.tuple [PyExpr.name "operator2", PyExpr.name "resonator"])]

/-- The first hilbertspace.add_interaction call. -/
def interaction1Expr : PyExpr :=
  PyExpr.call (PyExpr.attr (PyExpr.name "hilbertspace") "add_interaction") [] interaction1Kwargs

/-- Keyword arguments of the second add_interaction call. -/
def interaction2Kwargs : List (String × PyExpr) :=
  [("g", PyExpr.name "g2"),
   ("op1", PyExpr.attr (PyExpr.name "tmon2") "n_operator"),
   ("op2", PyExpr.attr (PyExpr.name "resonator") "creation_operator"),
   ("add_hc", PyExpr.boolLit true)]

/-- The second hilbertspace.add_interaction call. -/
def interaction2Expr : PyExpr :=
  PyExpr.call (PyExpr.attr (PyExpr.name "hilbertspace") "add_interaction") [] interaction2Kwargs

/-- Cell 5: the coupling operators and the two add_interaction calls. -/
def cell5 : List Stmt :=
  [Stmt.assign (PyExpr.name "g1") (PyExpr.numLit 0.1),
   Stmt.assign (PyExpr.name "operator1")
     (PyExpr.call (PyExpr.attr (PyExpr.name "tmon1") "n_operator") [] []),
   Stmt.assign (PyExpr.name "operator2")
     (PyExpr.binop "+"
       (PyExpr.call (PyExpr.attr (PyExpr.name "resonator") "creation_operator") [] [])
       (PyExpr.call (PyExpr.attr (PyExpr.name "resonator") "annihilation_operator") [] [])),
   Stmt.exprStmt interaction1Expr,
   Stmt.assign (PyExpr.name "g2") (PyExpr.numLit 0.2),
   Stmt.exprStmt interaction2Expr]

/-- The call np.linspace(0.0, 1.0, 151). -/
def linspaceCallExpr : PyExpr :=
  PyExpr.call (PyExpr.attr (PyExpr.name "np") "linspace")
    [PyExpr.numLit 0, PyExpr.numLit 1, PyExpr.numLit 151] []

/-- Body of the notebook-defined function update_hilbertspace: the two
EJ assignments, transcribed verbatim. -/
def updateBody : List Stmt1 :=
  [Stmt1.assign (PyExpr.attr (PyExpr.name "tmon1") "EJ")
     (PyExpr.binop "*" (PyExpr.numLit 30)
       (PyExpr.call (PyExpr.attr (PyExpr.name "np") "abs")
         [PyExpr.call (PyExpr.attr (PyExpr.name "np") "cos")
           [PyExpr.binop "*" (PyExpr.attr (PyExpr.name "np") "pi") (PyExpr.name "param_val")]
           []]
         [])),
   Stmt1.assign (PyExpr.attr (PyExpr.name "tmon2") "EJ")
     (PyExpr.binop "*" (PyExpr.numLit 40)
       (PyExpr.call (PyExpr.attr (PyExpr.name "np") "abs")
         [PyExpr.call (PyExpr.attr (PyExpr.name "np") "cos")
           [PyExpr.binop "*"
             (PyExpr.binop "*" (PyExpr.attr (PyExpr.name "np") "pi") (PyExpr.name "param_val"))
             (PyExpr.numLit 2)]
           []]
         []))]

/-- Keyword arguments of the ParameterSweep constructor call. -/
def parameterSweepKwargs : List (String × PyExpr) :=
  [("paramvals_by_name", PyExpr.dictLit [(PyExpr.name "param_name", PyExpr.name "param_vals")]),
   ("evals_count", PyExpr.numLit 15),
   ("hilbertspace", PyExpr.name "hilbertspace"),
   ("subsys_update_info",
     PyExpr.dictLit [(PyExpr.name "param_name",
       PyExpr.listLit [PyExpr.name "tmon1", PyExpr.name "tmon2"])]),
   ("update_hilbertspace", PyExpr.name "update_hilbertspace")]

/-- The call scq.ParameterSweep(...). -/
def parameterSweepExpr : PyExpr :=
  PyExpr.call (PyExpr.attr (PyExpr.name "scq") "ParameterSweep") [] parameterSweepKwargs

/-- Cell 6: sweep parameter grid, update function, ParameterSweep. -/
def cell6 : List Stmt :=
  [Stmt.assign (PyExpr.name "param_name") (PyExpr.strLit "Φext/Φ0"),
   Stmt.assign (PyExpr.name "param_vals") linspaceCallExpr,
   Stmt.assign (PyExpr.name "subsys_update_list")
     (PyExpr.listLit [PyExpr.name "tmon1", PyExpr.name "tmon2"]),
   Stmt.funcDef "update_hilbertspace" ["param_val"] updateBody,
   Stmt.assign (PyExpr.name "sweep") parameterSweepExpr]

/-- The call scq.Explorer(sweep=sweep). -/
def explorerExpr : PyExpr :=
  PyExpr.call (PyExpr.attr (PyExpr.name "scq") "Explorer") [] [("sweep", PyExpr.name "sweep")]

/-- Cell 7: explorer = scq.Explorer(sweep=sweep). -/
def cell7 : List Stmt :=
  [Stmt.assign (PyExpr.name "explorer") explorerExpr]

/-- The whole notebook, top to bottom. -/
def notebook : List Stmt :=
  cell1 ++ cell2 ++ cell3 ++ cell4 ++ cell5 ++ cell6 ++ cell7

/-! ## Runtime call trace

The calls a statement performs when executed, in Python evaluation order:
for a call expression, the callee is evaluated first, then the positional
arguments left to right, then the keyword argument values, and the call
itself happens last.  A function definition performs no call at
definition time, so funcDef contributes nothing to the trace. -/

/-- Collect every call expression inside an expression, in evaluation
order, the outer call last.  The fuel bounds the recursion depth; the
notebook never nests deeper than six levels. -/
def exprCallsAux : ℕ → PyExpr → List PyExpr
  | 0, _ => []
  | fuel + 1, e =>
    match e with
    | PyExpr.call f args kwargs =>
        exprCallsAux fuel f
          ++ (args.map (exprCallsAux fuel)).flatten
          ++ (kwargs.map (fun kv => exprCallsAux fuel kv.2)).flatten
          ++ [PyExpr.call f args kwargs]
    | PyExpr.attr e1 _ => exprCallsAux fuel e1
    | PyExpr.binop _ l r => exprCallsAux fuel l ++ exprCallsAux fuel r
    | PyExpr.tuple es => (es.map (exprCallsAux fuel)).flatten
    | PyExpr.listLit es => (es.map (exprCallsAux fuel)).flatten
    | PyExpr.dictLit kvs =>
        (kvs.map (fun kv => exprCallsAux fuel kv.1 ++ exprCallsAux fuel kv.2)).flatten
    | _ => []

/-- Call collection with enough fuel for the notebook. -/
def exprCalls (e : PyExpr) : List PyExpr := exprCallsAux 32 e

/-- Calls performed when a top-level statement executes. -/
def stmtCalls : Stmt → List PyExpr
  | Stmt.importStmt _ _ => []
  | Stmt.assign target value => exprCalls target ++ exprCalls value
  | Stmt.exprStmt e => exprCalls e
  | Stmt.funcDef _ _ _ => []
  | Stmt.ifStmt cond _ _ => exprCalls cond
  | Stmt.forStmt _ iter _ => exprCalls iter
  | Stmt.whileStmt cond _ => exprCalls cond
  | Stmt.tryStmt _ _ => []
  | Stmt.raiseStmt e => (e.map exprCalls).getD []
  | Stmt.assertStmt e => exprCalls e
  | Stmt.withStmt ctx _ => exprCalls ctx

/-- The sequence of calls the notebook performs, executed top to bottom. -/
def notebookCallTrace : List PyExpr := (notebook.map stmtCalls).flatten

/-- Classification of the calls occurring in the notebook.  A Transmon
constructor carries the numeric EJ keyword argument when present, which
distinguishes the tmon1 call from the tmon2 call.  The programmatic
HilbertSpace assembly carries the names of the subsystems passed in its
list argument. -/
inductive CallKind where
  | transmonCtor (ejArg : Option ℚ)
  | oscillatorCtor
  | hilbertSpaceCreate
  | hilbertSpaceFromList (subsystems : List String)
  | nOperatorCall (obj : String)
  | creationOperatorCall (obj : String)
  | annihilationOperatorCall (obj : String)
  | addInteractionCall
  | linspaceCall
  | parameterSweepCtor
  | explorerCtor
  | printBuiltin
  | otherCall
deriving DecidableEq

/-- Look up a keyword argument by name. -/
def kwLookup (kwargs : List (String × PyExpr)) (key : String) : Option PyExpr :=
  (kwargs.find? (fun kv => kv.1 == key)).map (fun kv => kv.2)

/-- Numeric value of an expression when it is a literal. -/
def numValue : PyExpr → Option ℚ
  | PyExpr.numLit q => some q
  | _ => none

/-- Variable name of an expression when it is a bare name. -/
def nameOf : PyExpr → Option String
  | PyExpr.name s => some s
  | _ => none

/-- Classify one call expression of the notebook. -/
def classifyCall : PyExpr → CallKind
  | PyExpr.call (PyExpr.attr (PyExpr.name "scq") "Transmon") _ kwargs =>
      CallKind.transmonCtor ((kwLookup kwargs "EJ").bind numValue)
  | PyExpr.call (PyExpr.attr (PyExpr.name "scq") "Oscillator") _ _ =>
      CallKind.oscillatorCtor
  | PyExpr.call (PyExpr.attr (PyExpr.attr (PyExpr.name "scq") "HilbertSpace") "create") _ _ =>
      CallKind.hilbertSpaceCreate
  | PyExpr.call (PyExpr.attr (PyExpr.name "scq") "HilbertSpace") [PyExpr.listLit es] _ =>
      CallKind.hilbertSpaceFromList (es.filterMap nameOf)
  | PyExpr.call (PyExpr.attr (PyExpr.name obj) "n_operator") _ _ =>
      CallKind.nOperatorCall obj
  | PyExpr.call (PyExpr.attr (PyExpr.name obj) "creation_operator") _ _ =>
      CallKind.creationOperatorCall obj
  | PyExpr.call (PyExpr.attr (PyExpr.name obj) "annihilation_operator") _ _ =>
      CallKind.annihilationOperatorCall obj
  | PyExpr.call (PyExpr.attr (PyExpr.name "hilbertspace") "add_interaction") _ _ =>
      CallKind.addInteractionCall
  | PyExpr.call (PyExpr.attr (PyExpr.name "np") "linspace") _ _ =>
      CallKind.linspaceCall
  | PyExpr.call (PyExpr.attr (PyExpr.name "scq") "ParameterSweep") _ _ =>
      CallKind.parameterSweepCtor
  | PyExpr.call (PyExpr.attr (PyExpr.name "scq") "Explorer") _ _ =>
      CallKind.explorerCtor
  | PyExpr.call (PyExpr.name "print") _ _ =>
      CallKind.printBuiltin
  | _ => CallKind.otherCall

/-- The classified call trace of the notebook. -/
def traceKinds : List CallKind := notebookCallTrace.map classifyCall

/-- A subsystem constructor call: Transmon or Oscillator. -/
def isSubsystemCtor : CallKind → Bool
  | CallKind.transmonCtor _ => true
  | CallKind.oscillatorCtor => true
  | _ => false

/-! ## Structural predicates on the transcription -/

/-- Control flow (branching or looping) at nesting level one. -/
def stmt1IsBranch : Stmt1 → Bool
  | Stmt1.ifStmt _ _ _ => true
  | Stmt1.forStmt _ _ _ => true
  | Stmt1.whileStmt _ _ => true
  | _ => false

/-- Error handling (try, raise, assert) at nesting level one. -/
def stmt1IsErrHandling : Stmt1 → Bool
  | Stmt1.tryStmt _ _ => true
  | Stmt1.raiseStmt _ => true
  | Stmt1.assertStmt _ => true
  | _ => false

/-- A top-level statement contains control flow, directly or inside a
nested block. -/
def stmtHasBranch : Stmt → Bool
  | Stmt.ifStmt _ _ _ => true
  | Stmt.forStmt _ _ _ => true
  | Stmt.whileStmt _ _ => true
  | Stmt.funcDef _ _ body => body.any stmt1IsBranch
  | Stmt.tryStmt body handlers => body.any stmt1IsBranch || handlers.any stmt1IsBranch
  | Stmt.withStmt _ body => body.any stmt1IsBranch
  | _ => false

/-- A top-level statement contains error handling (try, except, raise or
assert), directly or inside a nested block. -/
def stmtHasErrHandling : Stmt → Bool
  | Stmt.tryStmt _ _ => true
  | Stmt.raiseStmt _ => true
  | Stmt.assertStmt _ => true
  | Stmt.funcDef _ _ body => body.any stmt1IsErrHandling
  | Stmt.ifStmt _ thn els => thn.any stmt1IsErrHandling || els.any stmt1IsErrHandling
  | Stmt.forStmt _ _ body => body.any stmt1IsErrHandling
  | Stmt.whileStmt _ body => body.any stmt1IsErrHandling
  | Stmt.withStmt _ body => body.any stmt1IsErrHandling
  | _ => false

/-- The root name of a callee: the base variable of an attribute chain. -/
def calleeRoot : PyExpr → Option String
  | PyExpr.name s => some s
  | PyExpr.attr e _ => calleeRoot e
  | _ => none

/-- Root of the callee of a call expression. -/
def callRoot : PyExpr → Option String
  | PyExpr.call f _ _ => calleeRoot f
  | _ => none

/-- A call into the interface of the imported external libraries: rooted
at the numpy alias, the scqubits alias, or one of the objects the
scqubits library returned (the three subsystems, the hilbertspace). -/
def isExternalLibCall (e : PyExpr) : Bool :=
  match callRoot e with
  | some r => r == "np" || r == "scq" || r == "tmon1" || r == "tmon2"
      || r == "resonator" || r == "hilbertspace"
  | none => false

/-- A call that would perform file, network or command-line input/output:
rooted at the open or input builtins or at a module that provides such
access. -/
def isIOCall (e : PyExpr) : Bool :=
  match callRoot e with
  | some r => r == "open" || r == "input"
      || r == "os" || r == "sys" || r == "socket" || r == "subprocess"
      || r == "requests" || r == "urllib" || r == "pathlib" || r == "argparse"
      || r == "io" || r == "shutil"
  | none => false

/-- Expressions appearing in a level-zero statement. -/
def stmt0Exprs : Stmt0 → List PyExpr
  | Stmt0.assign target value => [target, value]
  | Stmt0.exprStmt e => [e]

/-- Expressions appearing in a level-one statement, nested blocks
included. -/
def stmt1Exprs : Stmt1 → List PyExpr
  | Stmt1.assign target value => [target, value]
  | Stmt1.exprStmt e => [e]
  | Stmt1.ifStmt cond thn els =>
      cond :: (thn.map stmt0Exprs).flatten ++ (els.map stmt0Exprs).flatten
  | Stmt1.forStmt _ iter body => iter :: (body.map stmt0Exprs).flatten
  | Stmt1.whileStmt cond body => cond :: (body.map stmt0Exprs).flatten
  | Stmt1.tryStmt body handlers =>
      (body.map stmt0Exprs).flatten ++ (handlers.map stmt0Exprs).flatten
  | Stmt1.raiseStmt e => e.toList
  | Stmt1.assertStmt e => [e]
  | Stmt1.returnStmt e => e.toList
  | Stmt1.withStmt ctx body => ctx :: (body.map stmt0Exprs).flatten

/-- Expressions appearing in a top-level statement, function bodies and
nested blocks included. -/
def stmtExprs : Stmt → List PyExpr
  | Stmt.importStmt _ _ => []
  | Stmt.assign target value => [target, value]
  | Stmt.exprStmt e => [e]
  | Stmt.funcDef _ _ body => (body.map stmt1Exprs).flatten
  | Stmt.ifStmt cond thn els =>
      cond :: (thn.map stmt1Exprs).flatten ++ (els.map stmt1Exprs).flatten
  | Stmt.forStmt _ iter body => iter :: (body.map stmt1Exprs).flatten
  | Stmt.whileStmt cond body => cond :: (body.map stmt1Exprs).flatten
  | Stmt.tryStmt body handlers =>
      (body.map stmt1Exprs).flatten ++ (handlers.map stmt1Exprs).flatten
  | Stmt.raiseStmt e => e.toList
  | Stmt.assertStmt e => [e]
  | Stmt.withStmt ctx body => ctx :: (body.map stmt1Exprs).flatten

/-- Every call expression written anywhere in the notebook, function
bodies included (unlike the runtime trace, which excludes bodies not
executed at definition time). -/
def notebookAllCalls : List PyExpr :=
  ((notebook.map stmtExprs).flatten.map exprCalls).flatten

/-- The import list of the notebook: module name and alias. -/
def notebookImports : List (String × String) :=
  notebook.filterMap (fun s =>
    match s with
    | Stmt.importStmt m a => some (m, a)
    | _ => none)

/-- The functions the notebook defines. -/
def notebookDefinedFunctions : List String :=
  notebook.filterMap (fun s =>
    match s with
    | Stmt.funcDef n _ _ => some n
    | _ => none)

/-- A keyword argument list whose values are all numeric literals. -/
def kwargsAllNumeric (kwargs : List (String × PyExpr)) : Bool :=
  kwargs.all (fun kv =>
    match kv.2 with
    | PyExpr.numLit _ => true
    | _ => false)

/-! ## Semantic model of the sweep grid and the update callback -/

/-- Modelled from np.linspace with default endpoint=True: num evenly
spaced values from start to stop inclusive, computed exactly over the
rationals. -/
def linspace (start stop : ℚ) (num : ℕ) : List ℚ :=
  (List.range num).map (fun i : ℕ => start + (stop - start) * (i : ℚ) / ((num : ℚ) - 1))

/-- The sweep grid of the notebook: np.linspace(0.0, 1.0, 151). -/
def param_vals : List ℚ := linspace 0 1 151

/-- The name of the swept parameter. -/
def sweepParamName : String := "Φext/Φ0"

/-- A Transmon as configured by the notebook: the keyword arguments of
scq.Transmon that the notebook passes. -/
structure Transmon where
  EJ : ℝ
  EC : ℝ
  ng : ℝ
  ncut : ℕ
  truncated_dim : ℕ

/-- An Oscillator as configured by the notebook. -/
structure Oscillator where
  E_osc : ℝ
  truncated_dim : ℕ

/-- The mutable state the update callback acts on: the three global
subsystem objects. -/
structure NotebookState where
  tmon1 : Transmon
  tmon2 : Transmon
  resonator : Oscillator

/-- The notebook-defined update callback, translated statement by
statement: tmon1.EJ = 30*np.abs(np.cos(np.pi * param_val)) and
tmon2.EJ = 40*np.abs(np.cos(np.pi * param_val * 2)).  The mutation of
the two global objects becomes explicit state passing. -/
noncomputable def update_hilbertspace (param_val : ℝ) (s : NotebookState) : NotebookState :=
  { s with
    tmon1 := { s.tmon1 with EJ := 30 * |Real.cos (Real.pi * param_val)| },
    tmon2 := { s.tmon2 with EJ := 40 * |Real.cos (Real.pi * param_val * 2)| } }

/-- The range constraint that the notebook-authored update formulas
guarantee for the Josephson energies they assign: after any call of
update_hilbertspace, tmon1.EJ lies in [0, 30] and tmon2.EJ lies in
[0, 40]. -/
def updateAssignedEJBound : Prop :=
  ∀ (p : ℝ) (s : NotebookState),
    0 ≤ (update_hilbertspace p s).tmon1.EJ ∧ (update_hilbertspace p s).tmon1.EJ ≤ 30 ∧
    0 ≤ (update_hilbertspace p s).tmon2.EJ ∧ (update_hilbertspace p s).tmon2.EJ ≤ 40

/-! ## Helper lemmas -/

lemma param_vals_eq :
    param_vals = (List.range 151).map (fun i : ℕ => (i : ℚ) / 150) := by
  unfold param_vals linspace
  refine List.map_congr_left ?_
  intro a _
  norm_num

lemma param_vals_length : param_vals.length = 151 := by
  rw [param_vals_eq, List.length_map, List.length_range]

lemma mul_abs_cos_bounds (c x : ℝ) (hc : 0 ≤ c) :
    0 ≤ c * |Real.cos x| ∧ c * |Real.cos x| ≤ c := by
  constructor
  · exact mul_nonneg hc (abs_nonneg _)
  · calc c * |Real.cos x| ≤ c * 1 := mul_le_mul_of_nonneg_left (Real.abs_cos_le_one x) hc
    _ = c := mul_one c

lemma updateAssignedEJBound_holds : updateAssignedEJBound := by
  intro p s
  have h1 := mul_abs_cos_bounds 30 (Real.pi * p) (by norm_num)
  have h2 := mul_abs_cos_bounds 40 (Real.pi * p * 2) (by norm_num)
  exact ⟨h1.1, h1.2, h2.1, h2.2⟩

/-! ## Claim theorems -/

/-- Claim C1: executed top to bottom, the notebook performs its library
calls in this order: the Transmon constructor for tmon1 (trace index 0),
the Transmon constructor for tmon2 (index 1), the Oscillator constructor
for the resonator (index 2), the assembly of the composite HilbertSpace
from the subsystem list (index 4), the two add_interaction registrations
(indices 9 and 10), the ParameterSweep construction (index 12), and
finally the Explorer construction (index 13, the last call of the
notebook).  The indices are strictly increasing, so no step precedes one
listed before it. -/
theorem C1_notebook_call_order :
    List.findIdxs (fun k => decide (k = CallKind.transmonCtor (some 40))) traceKinds = [0] ∧
    List.findIdxs (fun k => decide (k = CallKind.transmonCtor (some 15))) traceKinds = [1] ∧
    List.findIdxs (fun k => decide (k = CallKind.oscillatorCtor)) traceKinds = [2] ∧
    List.findIdxs isSubsystemCtor traceKinds = [0, 1, 2] ∧
    List.findIdxs
      (fun k => decide (k = CallKind.hilbertSpaceFromList ["tmon1", "tmon2", "resonator"]))
      traceKinds = [4] ∧
    List.findIdxs (fun k => decide (k = CallKind.addInteractionCall)) traceKinds = [9, 10] ∧
    List.findIdxs (fun k => decide (k = CallKind.parameterSweepCtor)) traceKinds = [12] ∧
    List.findIdxs (fun k => decide (k = CallKind.explorerCtor)) traceKinds = [13] ∧
    traceKinds.length = 14 := by
  decide

/-- Claim C2 counterexample: step (1) does not consist of exactly one
library call (it instantiates the subsystems in three constructor calls)
and step (3) does not consist of exactly one library call (it registers
the interactions in two add_interaction calls); moreover the
notebook-defined function update_hilbertspace is supplied as the update
callback of the ParameterSweep, so a notebook-defined function does
contribute logic to step (4). -/
theorem C2_single_call_counterexample :
    traceKinds.countP isSubsystemCtor = 3 ∧
    traceKinds.countP (fun k => decide (k = CallKind.addInteractionCall)) = 2 ∧
    kwLookup parameterSweepKwargs "update_hilbertspace"
      = some (PyExpr.name "update_hilbertspace") ∧
    notebookDefinedFunctions = ["update_hilbertspace"] :=
  ⟨by decide, by decide, rfl, by decide⟩

/-- Claim C2, amended: step (1) instantiates the subsystem objects in
three library calls (one per subsystem) and step (3) registers the
interaction terms in two library calls (one per interaction term); the
programmatic Hilbert space assembly of step (2) and the constructions of
steps (4) and (5) are each a single library call, with one additional
GUI-based HilbertSpace.create call made earlier whose result is
overwritten.  The notebook authors no control flow or branching of its
own; its only defined function is update_hilbertspace, a straight-line
two-assignment body supplied as the update callback of step (4), and the
notebook never calls that function itself. -/
theorem C2_call_granularity :
    traceKinds.countP isSubsystemCtor = 3 ∧
    traceKinds.countP
      (fun k => decide (k = CallKind.hilbertSpaceFromList ["tmon1", "tmon2", "resonator"]))
      = 1 ∧
    traceKinds.countP (fun k => decide (k = CallKind.hilbertSpaceCreate)) = 1 ∧
    traceKinds.countP (fun k => decide (k = CallKind.addInteractionCall)) = 2 ∧
    traceKinds.countP (fun k => decide (k = CallKind.parameterSweepCtor)) = 1 ∧
    traceKinds.countP (fun k => decide (k = CallKind.explorerCtor)) = 1 ∧
    notebook.all (fun s => !stmtHasBranch s) = true ∧
    notebookDefinedFunctions = ["update_hilbertspace"] ∧
    updateBody.length = 2 ∧
    updateBody.all (fun s => !stmt1IsBranch s) = true ∧
    notebookCallTrace.countP (fun c => decide (callRoot c = some "update_hilbertspace")) = 0 := by
  decide

/-- Claim C3 counterexample: the claim says that for every subsystem
parameter there is no constraint, such as a sign bound or range
restriction, that notebook-authored code guarantees for the value
assigned.  Its negation is proved: for the subsystem parameters
tmon1.EJ and tmon2.EJ there is such a constraint, since the
notebook-authored formulas in update_hilbertspace guarantee
0 <= tmon1.EJ <= 30 and 0 <= tmon2.EJ <= 40 for every parameter value
and every prior state. -/
theorem C3_guaranteed_bound_counterexample : updateAssignedEJBound :=
  updateAssignedEJBound_holds

/-- Claim C3, amended: the notebook performs no validation or
consistency checking on the numeric configuration values it passes into
the library: it contains no conditionals, loops, assertions or exception
handling anywhere, and the subsystem constructors receive only literal
numeric keyword arguments, so any runtime validation is performed only
by the external library.  However, the notebook-authored sweep update
formulas do mathematically guarantee range restrictions on the values
they assign: tmon1.EJ in [0, 30] and tmon2.EJ in [0, 40]. -/
theorem C3_no_validation_authored :
    notebook.all (fun s => !stmtHasBranch s) = true ∧
    notebook.all (fun s => !stmtHasErrHandling s) = true ∧
    kwargsAllNumeric tmon1Kwargs = true ∧
    kwargsAllNumeric tmon2Kwargs = true ∧
    kwargsAllNumeric resonatorKwargs = true ∧
    updateAssignedEJBound :=
  ⟨by decide, by decide, by decide, by decide, by decide, updateAssignedEJBound_holds⟩

/-- Claim C4: no notebook-authored code performs any error handling:
no statement of the notebook, at any nesting level, is or contains a
try/except block, a raise, or an assert, so every exception raised by a
library call propagates unhandled out of the notebook cell. -/
theorem C4_no_error_handling :
    notebook.all (fun s => !stmtHasErrHandling s) = true ∧
    notebook.countP stmtHasErrHandling = 0 := by
  decide

/-- Claim C5: the composite system consists of exactly three
subsystems: two Transmon constructor calls (distinguished by their EJ
arguments 40 and 15) and one Oscillator constructor call; the
HilbertSpace on which the interactions and the sweep operate is
constructed from precisely the list [tmon1, tmon2, resonator]; and both
registered interaction terms couple a transmon charge operator
(n_operator of tmon1, respectively of tmon2) to the shared oscillator
mode (creation and annihilation operators of the resonator). -/
theorem C5_composite_structure :
    traceKinds.countP isSubsystemCtor = 3 ∧
    traceKinds.countP (fun k => decide (k = CallKind.transmonCtor (some 40))) = 1 ∧
    traceKinds.countP (fun k => decide (k = CallKind.transmonCtor (some 15))) = 1 ∧
    traceKinds.countP (fun k => decide (k = CallKind.oscillatorCtor)) = 1 ∧
    cell4[0]? = some (Stmt.assign (PyExpr.name "hilbertspace")
      (PyExpr.call (PyExpr.attr (PyExpr.name "scq") "HilbertSpace")
        [PyExpr.listLit [PyExpr.name "tmon1", PyExpr.name "tmon2", PyExpr.name "resonator"]]
        [])) ∧
    cell2[0]? = some (Stmt.assign (PyExpr.name "tmon1") tmon1CtorExpr) ∧
    cell2[1]? = some (Stmt.assign (PyExpr.name "tmon2") tmon2CtorExpr) ∧
    cell2[2]? = some (Stmt.assign (PyExpr.name "resonator") resonatorCtorExpr) ∧
    kwLookup interaction1Kwargs "op1"
      = some (PyExpr.tuple [PyExpr.name "operator1", PyExpr.name "tmon1"]) ∧
    kwLookup interaction1Kwargs "op2"
      = some (PyExpr.tuple [PyExpr.name "operator2", PyExpr.name "resonator"]) ∧
    cell5[1]? = some (Stmt.assign (PyExpr.name "operator1")
      (PyExpr.call (PyExpr.attr (PyExpr.name "tmon1") "n_operator") [] [])) ∧
    cell5[2]? = some (Stmt.assign (PyExpr.name "operator2")
      (PyExpr.binop "+"
        (PyExpr.call (PyExpr.attr (PyExpr.name "resonator") "creation_operator") [] [])
        (PyExpr.call (PyExpr.attr (PyExpr.name "resonator") "annihilation_operator") [] []))) ∧
    kwLookup interaction2Kwargs "op1"
      = some (PyExpr.attr (PyExpr.name "tmon2") "n_operator") ∧
    kwLookup interaction2Kwargs "op2"
      = some (PyExpr.attr (PyExpr.name "resonator") "creation_operator") :=
  ⟨by decide, by decide, by decide, by decide,
   rfl, rfl, rfl, rfl, rfl, rfl, rfl, rfl, rfl, rfl⟩

/-- Claim C6: the parameter sweep ranges over the single parameter named
Φext/Φ0; its grid is the 151 values of np.linspace(0.0, 1.0, 151),
which are evenly spaced from 0 to 1 inclusive with consecutive grid
points differing by 1/150; the sweep is configured with evals_count 15
and with the notebook-defined update_hilbertspace as its update
callback. -/
theorem C6_sweep_grid :
    cell6[0]? = some (Stmt.assign (PyExpr.name "param_name")
      (PyExpr.strLit sweepParamName)) ∧
    sweepParamName = "Φext/Φ0" ∧
    cell6[1]? = some (Stmt.assign (PyExpr.name "param_vals") linspaceCallExpr) ∧
    param_vals.length = 151 ∧
    (∀ (i : ℕ) (h : i < param_vals.length), param_vals.get ⟨i, h⟩ = (i : ℚ) / 150) ∧
    (∀ (i : ℕ) (h : i + 1 < param_vals.length),
      param_vals.get ⟨i + 1, h⟩ - param_vals.get ⟨i, by omega⟩ = 1 / 150) ∧
    kwLookup parameterSweepKwargs "evals_count" = some (PyExpr.numLit 15) ∧
    kwLookup parameterSweepKwargs "update_hilbertspace"
      = some (PyExpr.name "update_hilbertspace") ∧
    notebookDefinedFunctions = ["update_hilbertspace"] := by
  have hpt : ∀ (i : ℕ) (h : i < param_vals.length),
      param_vals.get ⟨i, h⟩ = (i : ℚ) / 150 := by
    intro i h
    rw [List.get_eq_getElem, List.getElem_of_eq param_vals_eq, List.getElem_map,
      List.getElem_range]
  have hsp : ∀ (i : ℕ) (h : i + 1 < param_vals.length),
      param_vals.get ⟨i + 1, h⟩ - param_vals.get ⟨i, by omega⟩ = 1 / 150 := by
    intro i h
    rw [hpt (i + 1) h, hpt i (by omega)]
    push_cast
    ring
  exact ⟨rfl, rfl, rfl, param_vals_length, hpt, hsp, rfl, rfl, by decide⟩

/-- Witness for C6: the first two grid points differ by exactly 1/150,
obtained from the main theorem at index 0. -/
theorem C6_sweep_grid_witness :
    param_vals.get ⟨1, by rw [param_vals_length]; norm_num⟩ -
      param_vals.get ⟨0, by rw [param_vals_length]; norm_num⟩ = 1 / 150 := by
  have h := C6_sweep_grid.2.2.2.2.2.1 0 (by rw [param_vals_length]; norm_num)
  exact h

/-- Claim C7 counterexample: the claim says every externally visible
effect of the notebook is a call into the external library interface,
but the sixth call of the trace is print(hilbertspace), a Python builtin
call that displays text in the cell output and is not rooted at the
numpy alias, the scqubits alias or a library-created object. -/
theorem C7_print_counterexample :
    notebookCallTrace[5]?
      = some (PyExpr.call (PyExpr.name "print") [PyExpr.name "hilbertspace"] []) ∧
    isExternalLibCall
      (PyExpr.call (PyExpr.name "print") [PyExpr.name "hilbertspace"] []) = false ∧
    classifyCall (PyExpr.call (PyExpr.name "print") [PyExpr.name "hilbertspace"] [])
      = CallKind.printBuiltin :=
  ⟨rfl, by decide, by decide⟩

/-- Claim C7, amended: the notebook defines no file format, wire
protocol or CLI of its own: its only imports are numpy and scqubits, no
call written anywhere in it (function bodies included) performs file,
network or command-line input/output, and every call it performs except
a single print of the assembled HilbertSpace summary is a call into the
interface of the imported external libraries (rooted at the numpy alias,
the scqubits alias, or an object those libraries returned). -/
theorem C7_pure_consumer :
    notebookImports = [("numpy", "np"), ("scqubits", "scq")] ∧
    notebookAllCalls.all (fun c => !isIOCall c) = true ∧
    notebookCallTrace.countP (fun c => !isExternalLibCall c) = 1 ∧
    notebookCallTrace.all (fun c =>
      isExternalLibCall c || decide (callRoot c = some "print")) = true := by
  decide

/-- Claim C8: for every parameter value and every prior state of the
subsystems, update_hilbertspace modifies only the EJ attributes of tmon1
and tmon2: the EC, ng, ncut and truncated_dim attributes of both
transmons and every attribute of the resonator are unchanged. -/
theorem C8_update_frame (p : ℝ) (s : NotebookState) :
    (update_hilbertspace p s).tmon1.EC = s.tmon1.EC ∧
    (update_hilbertspace p s).tmon1.ng = s.tmon1.ng ∧
    (update_hilbertspace p s).tmon1.ncut = s.tmon1.ncut ∧
    (update_hilbertspace p s).tmon1.truncated_dim = s.tmon1.truncated_dim ∧
    (update_hilbertspace p s).tmon2.EC = s.tmon2.EC ∧
    (update_hilbertspace p s).tmon2.ng = s.tmon2.ng ∧
    (update_hilbertspace p s).tmon2.ncut = s.tmon2.ncut ∧
    (update_hilbertspace p s).tmon2.truncated_dim = s.tmon2.truncated_dim ∧
    (update_hilbertspace p s).resonator = s.resonator :=
  ⟨rfl, rfl, rfl, rfl, rfl, rfl, rfl, rfl, rfl⟩

/-- Claim C9: for every real parameter value p, update_hilbertspace
assigns tmon1.EJ the value 30 times the absolute cosine of pi times p,
which lies in [0, 30], and assigns tmon2.EJ the value 40 times the
absolute cosine of 2 pi times p, which lies in [0, 40]. -/
theorem C9_update_EJ_bounds (p : ℝ) (s : NotebookState) :
    (update_hilbertspace p s).tmon1.EJ = 30 * |Real.cos (Real.pi * p)| ∧
    0 ≤ (update_hilbertspace p s).tmon1.EJ ∧
    (update_hilbertspace p s).tmon1.EJ ≤ 30 ∧
    (update_hilbertspace p s).tmon2.EJ = 40 * |Real.cos (2 * Real.pi * p)| ∧
    0 ≤ (update_hilbertspace p s).tmon2.EJ ∧
    (update_hilbertspace p s).tmon2.EJ ≤ 40 := by
  have h1 := mul_abs_cos_bounds 30 (Real.pi * p) (by norm_num)
  have h2 := mul_abs_cos_bounds 40 (Real.pi * p * 2) (by norm_num)
  refine ⟨rfl, h1.1, h1.2, ?_, h2.1, h2.2⟩
  show (40 : ℝ) * |Real.cos (Real.pi * p * 2)| = 40 * |Real.cos (2 * Real.pi * p)|
  rw [show Real.pi * p * 2 = 2 * Real.pi * p by ring]

/-- Claim C10: update_hilbertspace is symmetric about the midpoint of
the sweep range: calling it at 1 - p produces exactly the same state as
calling it at p, for every real p and every prior state, since the
absolute cosines satisfy the corresponding reflection identities. -/
theorem C10_update_symmetric (p : ℝ) (s : NotebookState) :
    update_hilbertspace (1 - p) s = update_hilbertspace p s := by
  have e1 : |Real.cos (Real.pi * (1 - p))| = |Real.cos (Real.pi * p)| := by
    rw [show Real.pi * (1 - p) = Real.pi - Real.pi * p by ring, Real.cos_pi_sub, abs_neg]
  have e2 : |Real.cos (Real.pi * (1 - p) * 2)| = |Real.cos (Real.pi * p * 2)| := by
    rw [show Real.pi * (1 - p) * 2 = 2 * Real.pi - Real.pi * p * 2 by ring,
      Real.cos_two_pi_sub]
  simp only [update_hilbertspace, e1, e2]
